import Mathlib

/-!
Verification of the NucloFlo web endpoint (application_root/BIOCLICK/app.py).

The repository is a single Flask handler, `POST /run_blast`, which validates a
multipart upload (`file`) and a form field (`blastType`), decodes the upload as
UTF-8 text, submits it to the remote NCBI service through
`NCBIWWW.qblast(blast_type, "nt", sequence_data)`, reads and closes the result
handle, and returns the result text re-encoded as UTF-8 bytes as a downloadable
attachment; any exception inside the guarded block is caught and turned into a
500 JSON error.

The embedding below models the handler as a pure function from the request
parts and the behaviour of the remote client to an HTTP response, instrumented
with a log recording the qblast invocations and how many network handles were
acquired and released.
-/

namespace NucloFlo

/-- Raw bytes of an HTTP multipart upload, one `Nat` per byte. -/
abbrev Bytes := List Nat

/-- The parts of a `POST /run_blast` request that the handler inspects:
`request.files` may or may not contain `file`, and `request.form` may or may
not contain `blastType`. -/
structure BlastRequest where
  file : Option Bytes
  blastType : Option String
  deriving DecidableEq, Repr

/-- Error text for a byte that cannot start a UTF-8 sequence. -/
def invalidStartByte (b pos : Nat) : String :=
  "invalid start byte " ++ toString b ++ " in position " ++ toString pos

/-- Error text for an out-of-range byte inside a UTF-8 sequence. -/
def invalidContByte (b pos : Nat) : String :=
  "invalid continuation byte " ++ toString b ++ " in position " ++ toString pos

/-- Error text for a UTF-8 sequence truncated by the end of the input. -/
def unexpectedEnd (pos : Nat) : String :=
  "unexpected end of data in position " ++ toString pos

/-- Is `b` a UTF-8 continuation byte (0x80 to 0xBF)? -/
def isCont (b : Nat) : Bool := 128 ≤ b && b < 192

/-- Lowest allowed second byte of a three-byte sequence starting with `b`
(0xE0 forbids overlong encodings below 0x800). -/
def cont3lo (b : Nat) : Nat := if b = 224 then 160 else 128

/-- Highest allowed second byte of a three-byte sequence starting with `b`
(0xED forbids the surrogate range 0xD800 to 0xDFFF). -/
def cont3hi (b : Nat) : Nat := if b = 237 then 159 else 191

/-- Lowest allowed second byte of a four-byte sequence starting with `b`
(0xF0 forbids overlong encodings below 0x10000). -/
def cont4lo (b : Nat) : Nat := if b = 240 then 144 else 128

/-- Highest allowed second byte of a four-byte sequence starting with `b`
(0xF4 forbids code points above 0x10FFFF). -/
def cont4hi (b : Nat) : Nat := if b = 244 then 143 else 191

/-- Strict UTF-8 decoding, as performed by `bytes.decode("utf-8")` in the
handler: rejects invalid start bytes (including 0xC0, 0xC1 and 0xF5 upwards),
truncated sequences, out-of-range continuation bytes, overlong encodings,
surrogates and code points above 0x10FFFF.  `pos` is the position of the head
of `bs` in the original input; the exact error wording is model-level, the
accept/reject behaviour matches the source. -/
def utf8DecodeAux (pos : Nat) (bs : List Nat) : Except String (List Char) :=
  match bs with
  | [] => Except.ok []
  | b :: rest =>
    if b < 128 then
      (utf8DecodeAux (pos + 1) rest).map (fun cs => Char.ofNat b :: cs)
    else if b < 194 then
      Except.error (invalidStartByte b pos)
    else if b < 224 then
      match rest with
      | [] => Except.error (unexpectedEnd (pos + 1))
      | b1 :: rest1 =>
        if isCont b1 then
          (utf8DecodeAux (pos + 2) rest1).map
            (fun cs => Char.ofNat ((b - 192) * 64 + (b1 - 128)) :: cs)
        else Except.error (invalidContByte b1 (pos + 1))
    else if b < 240 then
      match rest with
      | [] => Except.error (unexpectedEnd (pos + 1))
      | b1 :: rest1 =>
        if cont3lo b ≤ b1 && b1 ≤ cont3hi b then
          match rest1 with
          | [] => Except.error (unexpectedEnd (pos + 2))
          | b2 :: rest2 =>
            if isCont b2 then
              (utf8DecodeAux (pos + 3) rest2).map
                (fun cs =>
                  Char.ofNat ((b - 224) * 4096 + (b1 - 128) * 64 + (b2 - 128)) :: cs)
            else Except.error (invalidContByte b2 (pos + 2))
        else Except.error (invalidContByte b1 (pos + 1))
    else if b < 245 then
      match rest with
      | [] => Except.error (unexpectedEnd (pos + 1))
      | b1 :: rest1 =>
        if cont4lo b ≤ b1 && b1 ≤ cont4hi b then
          match rest1 with
          | [] => Except.error (unexpectedEnd (pos + 2))
          | b2 :: rest2 =>
            if isCont b2 then
              match rest2 with
              | [] => Except.error (unexpectedEnd (pos + 3))
              | b3 :: rest3 =>
                if isCont b3 then
                  (utf8DecodeAux (pos + 4) rest3).map
                    (fun cs =>
                      Char.ofNat ((b - 240) * 262144 + (b1 - 128) * 4096 +
                        (b2 - 128) * 64 + (b3 - 128)) :: cs)
                else Except.error (invalidContByte b3 (pos + 3))
            else Except.error (invalidContByte b2 (pos + 2))
        else Except.error (invalidContByte b1 (pos + 1))
    else
      Except.error (invalidStartByte b pos)

/-- `uploaded.read().decode("utf-8")`: the decoded text, or the text of the
`UnicodeDecodeError` the decode raises. -/
def utf8Decode (bs : Bytes) : Except String String :=
  (utf8DecodeAux 0 bs).map (fun cs => String.mk cs)

/-- UTF-8 encoding of a single code point. -/
def utf8EncodeChar (c : Nat) : List Nat :=
  if c < 128 then [c]
  else if c < 2048 then [192 + c / 64, 128 + c % 64]
  else if c < 65536 then [224 + c / 4096, 128 + c / 64 % 64, 128 + c % 64]
  else [240 + c / 262144, 128 + c / 4096 % 64, 128 + c / 64 % 64, 128 + c % 64]

/-- `result_xml.encode("utf-8")`: the UTF-8 bytes of a string. -/
def utf8Encode (s : String) : Bytes :=
  (s.data.map (fun ch => utf8EncodeChar ch.toNat)).flatten

/-- The whitelist the handler checks `blastType` against, in source order. -/
def supportedBlastTypes : List String :=
  ["blastn", "blastp", "blastx", "tblastn", "tblastx"]

/-- Behaviour of the Remote Search Client (`NCBIWWW.qblast`) as the handler
sees it.  `qblast program database sequence` either raises with some message
(`Except.error`), or returns a freshly opened handle whose single `read` either
raises with some message or returns the result document text. -/
structure RemoteClient where
  qblast : String → String → String → Except String (Except String String)

/-- Instrumentation of one handler run: which qblast calls were made (program,
database, sequence), and how many network handles were acquired and released. -/
structure RunLog where
  qblastCalls : List (String × String × String)
  handlesOpened : Nat
  handlesClosed : Nat
  deriving DecidableEq, Repr

/-- The log of a run that never reaches the remote call. -/
def emptyLog : RunLog := ⟨[], 0, 0⟩

/-- The HTTP responses the handler can produce: `jsonify` bodies with and
without a `details` field, paired with their status code, and the `send_file`
response with its body bytes, attachment flag, attachment filename and MIME
type. -/
inductive Response where
  | jsonError (status : Nat) (error : String)
  | jsonErrorDetails (status : Nat) (error : String) (details : String)
  | fileDownload (status : Nat) (body : Bytes) (asAttachment : Bool)
      (attachmentFilename : String) (mimetype : String)
  deriving DecidableEq, Repr

/-- The `POST /run_blast` handler of app.py, line for line: presence check on
`file`, presence check on `blastType`, whitelist check, then the guarded block
(decode, qblast, read, close, send_file) whose exceptions become a 500 JSON
error carrying the exception text. -/
def run_blast (client : RemoteClient) (req : BlastRequest) : Response × RunLog :=
  match req.file with
  | none => (Response.jsonError 400 "Missing \x27file\x27 in request", emptyLog)
  | some fileBytes =>
    match req.blastType with
    | none => (Response.jsonError 400 "Missing \x27blastType\x27 in form data", emptyLog)
    | some blast_type =>
      if blast_type ∉ supportedBlastTypes then
        (Response.jsonError 400 ("Unsupported blastType \x27" ++ blast_type ++ "\x27"),
         emptyLog)
      else
        match utf8Decode fileBytes with
        | Except.error e =>
          (Response.jsonErrorDetails 500 "Remote BLAST failed" e, emptyLog)
        | Except.ok sequence_data =>
          match client.qblast blast_type "nt" sequence_data with
          | Except.error e =>
            (Response.jsonErrorDetails 500 "Remote BLAST failed" e,
             ⟨[(blast_type, "nt", sequence_data)], 0, 0⟩)
          | Except.ok handle =>
            match handle with
            | Except.error e =>
              -- result_handle.read() raised: control jumps to the except
              -- clause and result_handle.close() on the next line is skipped
              (Response.jsonErrorDetails 500 "Remote BLAST failed" e,
               ⟨[(blast_type, "nt", sequence_data)], 1, 0⟩)
            | Except.ok result_xml =>
              (Response.fileDownload 200 (utf8Encode result_xml) true
                 "blast_result.xml" "application/xml",
               ⟨[(blast_type, "nt", sequence_data)], 1, 1⟩)

/-- A request on which one of the three validation checks fires. -/
def failsValidation (req : BlastRequest) : Prop :=
  req.file = none ∨ req.blastType = none ∨
    ∃ bt, req.blastType = some bt ∧ bt ∉ supportedBlastTypes

/-- Handling a sequence of independent requests: the server keeps no state
between requests, so a batch is just the handler mapped over the list. -/
def runBatch (client : RemoteClient) (reqs : List BlastRequest) :
    List (Response × RunLog) :=
  reqs.map (run_blast client)

/-- A concrete client whose qblast succeeds but whose handle raises on read,
exhibiting the error path of the guarded block. -/
def readFailClient : RemoteClient :=
  ⟨fun _ _ _ => Except.ok (Except.error "timeout")⟩

/-- Is `c` a whitespace character (space, tab, line feed, carriage return)? -/
def isSpaceChar (c : Char) : Bool :=
  c = ' ' || c = '\t' || c = '\n' || c = '\r'

/-- Lower-case an ASCII letter, identity on every other character. -/
def lowerChar (c : Char) : Char :=
  if 65 ≤ c.toNat ∧ c.toNat ≤ 90 then Char.ofNat (c.toNat + 32) else c

/-- Strip whitespace from both ends of a character list. -/
def stripOuter (cs : List Char) : List Char :=
  ((cs.dropWhile isSpaceChar).reverse.dropWhile isSpaceChar).reverse

/-- The normal form of a string under letter case and surrounding whitespace:
outer whitespace removed and letters lower-cased.  `v` differs from a
supported value only in letter case or surrounding whitespace exactly when
`caseSpaceNormal v ∈ supportedBlastTypes`. -/
def caseSpaceNormal (v : String) : String :=
  String.mk ((stripOuter v.data).map lowerChar)

/-- C1: for every request with a present file upload and a supported
`blastType`, when the remote client returns a fixed document `D`, the handler
answers 200 with body `D` encoded as UTF-8 bytes, content type
`application/xml`, as an attachment named `blast_result.xml`. -/
theorem c1_success_response (client : RemoteClient) (f : Bytes) (bt seq D : String)
    (hbt : bt ∈ supportedBlastTypes)
    (hdec : utf8Decode f = Except.ok seq)
    (hcl : client.qblast bt "nt" seq = Except.ok (Except.ok D)) :
    (run_blast client ⟨some f, some bt⟩).1 =
      Response.fileDownload 200 (utf8Encode D) true "blast_result.xml" "application/xml" := by
  simp [run_blast, hbt, hdec, hcl]

theorem c1_success_response_witness :
    ("blastn" ∈ supportedBlastTypes) ∧
    (utf8Decode [65, 67, 71, 84] = Except.ok "ACGT") ∧
    (run_blast ⟨fun _ _ _ => Except.ok (Except.ok "DOC")⟩
        ⟨some [65, 67, 71, 84], some "blastn"⟩).1 =
      Response.fileDownload 200 (utf8Encode "DOC") true "blast_result.xml" "application/xml" :=
  ⟨by decide, rfl,
    c1_success_response ⟨fun _ _ _ => Except.ok (Except.ok "DOC")⟩
      [65, 67, 71, 84] "blastn" "ACGT" "DOC" (by decide) rfl rfl⟩

/-- C2: for every request passing all three validation checks, if the remote
client raises with message `m` (either qblast itself or the read of the result
handle), the handler answers 500 with JSON error `Remote BLAST failed` and
details `m`. -/
theorem c2_remote_failure_500 (client : RemoteClient) (f : Bytes) (bt seq m : String)
    (hbt : bt ∈ supportedBlastTypes)
    (hdec : utf8Decode f = Except.ok seq)
    (hcl : client.qblast bt "nt" seq = Except.error m ∨
           client.qblast bt "nt" seq = Except.ok (Except.error m)) :
    (run_blast client ⟨some f, some bt⟩).1 =
      Response.jsonErrorDetails 500 "Remote BLAST failed" m := by
  rcases hcl with hcl | hcl <;> simp [run_blast, hbt, hdec, hcl]

theorem c2_remote_failure_500_witness :
    ("blastn" ∈ supportedBlastTypes) ∧
    (utf8Decode [65] = Except.ok "A") ∧
    (run_blast ⟨fun _ _ _ => Except.ok (Except.error "timeout")⟩
        ⟨some [65], some "blastn"⟩).1 =
      Response.jsonErrorDetails 500 "Remote BLAST failed" "timeout" :=
  ⟨by decide, rfl,
    c2_remote_failure_500 ⟨fun _ _ _ => Except.ok (Except.error "timeout")⟩
      [65] "blastn" "A" "timeout" (by decide) rfl (Or.inr rfl)⟩

/-- C3: validation is applied in this exact order and the first failing check
determines the response: missing `file` answers 400 whatever `blastType` holds;
then missing `blastType` answers 400; then an unsupported `blastType` answers
400 naming the value. -/
theorem c3_validation_order :
    (∀ (client : RemoteClient) (bto : Option String),
        (run_blast client ⟨none, bto⟩).1 =
          Response.jsonError 400 "Missing \x27file\x27 in request") ∧
    (∀ (client : RemoteClient) (f : Bytes),
        (run_blast client ⟨some f, none⟩).1 =
          Response.jsonError 400 "Missing \x27blastType\x27 in form data") ∧
    (∀ (client : RemoteClient) (f : Bytes) (bt : String),
        bt ∉ supportedBlastTypes →
        (run_blast client ⟨some f, some bt⟩).1 =
          Response.jsonError 400 ("Unsupported blastType \x27" ++ bt ++ "\x27")) := by
  refine ⟨fun client bto => rfl, fun client f => rfl, fun client f bt h => ?_⟩
  simp [run_blast, h]

theorem c3_validation_order_witness :
    (run_blast readFailClient ⟨none, some "blastn"⟩).1 =
      Response.jsonError 400 "Missing \x27file\x27 in request" ∧
    (run_blast readFailClient ⟨some [65], none⟩).1 =
      Response.jsonError 400 "Missing \x27blastType\x27 in form data" ∧
    (run_blast readFailClient ⟨some [65], some "megablast"⟩).1 =
      Response.jsonError 400 ("Unsupported blastType \x27" ++ "megablast" ++ "\x27") :=
  ⟨c3_validation_order.1 readFailClient (some "blastn"),
   c3_validation_order.2.1 readFailClient [65],
   c3_validation_order.2.2 readFailClient [65] "megablast" (by decide)⟩

/-- C4: whenever the supplied `blastType` is outside the five supported values,
the response is a 400 whose error message contains the submitted value. -/
theorem c4_unsupported_type_names_value (client : RemoteClient) (f : Bytes) (bt : String)
    (h : bt ∉ supportedBlastTypes) :
    ∃ msg, (run_blast client ⟨some f, some bt⟩).1 = Response.jsonError 400 msg ∧
      ∃ pre post, msg = pre ++ bt ++ post := by
  refine ⟨"Unsupported blastType \x27" ++ bt ++ "\x27", ?_, "Unsupported blastType \x27", "\x27", rfl⟩
  simp [run_blast, h]

theorem c4_unsupported_type_names_value_witness :
    ("blastz" ∉ supportedBlastTypes) ∧
    ∃ msg, (run_blast readFailClient ⟨some [65], some "blastz"⟩).1 =
        Response.jsonError 400 msg ∧ ∃ pre post, msg = pre ++ "blastz" ++ post :=
  ⟨by decide, c4_unsupported_type_names_value readFailClient [65] "blastz" (by decide)⟩

/-- C5: for every request passing validation whose uploaded bytes are not
valid UTF-8, the decode failure is caught by the same catch-all as the remote
failures and becomes a 500 with error `Remote BLAST failed` and details the
raw exception text. -/
theorem c5_decode_failure_500 (client : RemoteClient) (f : Bytes) (bt m : String)
    (hbt : bt ∈ supportedBlastTypes)
    (hdec : utf8Decode f = Except.error m) :
    (run_blast client ⟨some f, some bt⟩).1 =
      Response.jsonErrorDetails 500 "Remote BLAST failed" m := by
  simp [run_blast, hbt, hdec]

theorem c5_decode_failure_500_witness :
    ("blastn" ∈ supportedBlastTypes) ∧
    (utf8Decode [255] = Except.error (invalidStartByte 255 0)) ∧
    (run_blast readFailClient ⟨some [255], some "blastn"⟩).1 =
      Response.jsonErrorDetails 500 "Remote BLAST failed" (invalidStartByte 255 0) :=
  ⟨by decide, rfl,
    c5_decode_failure_500 readFailClient [255] "blastn" (invalidStartByte 255 0)
      (by decide) rfl⟩

/-- C6: for every request on which validation fails, the Remote Search Client
is never invoked and no handle is acquired: the run leaves the empty log. -/
theorem c6_no_remote_call_on_validation_failure (client : RemoteClient)
    (req : BlastRequest) (h : failsValidation req) :
    (run_blast client req).2 = emptyLog := by
  rcases req with ⟨file, bto⟩
  rcases h with h | h | ⟨bt, hbt, hmem⟩
  · cases h; rfl
  · cases h; cases file <;> rfl
  · cases hbt
    cases file with
    | none => rfl
    | some f => simp [run_blast, hmem, emptyLog]

theorem c6_no_remote_call_on_validation_failure_witness :
    failsValidation ⟨some [65], some "BLASTN"⟩ ∧
    (run_blast readFailClient ⟨some [65], some "BLASTN"⟩).2 = emptyLog :=
  ⟨Or.inr (Or.inr ⟨"BLASTN", rfl, by decide⟩),
   c6_no_remote_call_on_validation_failure readFailClient ⟨some [65], some "BLASTN"⟩
     (Or.inr (Or.inr ⟨"BLASTN", rfl, by decide⟩))⟩

/-- C7: every qblast invocation any run performs passes the database argument
`nt`, whichever of the five search kinds was selected. -/
theorem c7_database_always_nt (client : RemoteClient) (req : BlastRequest) :
    ((run_blast client req).2.qblastCalls.all fun c => c.2.1 == "nt") = true := by
  rcases req with ⟨file, bto⟩
  cases file with
  | none => rfl
  | some f =>
    cases bto with
    | none => rfl
    | some bt =>
      simp only [run_blast]
      split
      · rfl
      · split
        · rfl
        · split
          · rfl
          · split <;> rfl

/-- C8: the code does not release the network handle on the error path.  With
a client whose qblast succeeds but whose handle raises on `read`, the run
acquires one handle and releases none, because `result_handle.close()` sits on
the line after `result_handle.read()` with no `finally`, so the exception skips
it. -/
theorem c8_handle_leak_on_read_error :
    (run_blast readFailClient ⟨some [65, 67, 71, 84], some "blastn"⟩).2.handlesOpened = 1 ∧
    (run_blast readFailClient ⟨some [65, 67, 71, 84], some "blastn"⟩).2.handlesClosed = 0 := by
  decide

/-- C9: the handler is stateless and deterministic given the remote client
behaviour: two clients answering identically yield identical responses on any
request, and in a batch of requests each response is exactly the handler run
on its own request, independent of the requests around it. -/
theorem c9_stateless_deterministic :
    (∀ (c₁ c₂ : RemoteClient) (req : BlastRequest),
        (∀ p d s, c₁.qblast p d s = c₂.qblast p d s) →
        run_blast c₁ req = run_blast c₂ req) ∧
    (∀ (client : RemoteClient) (pre post : List BlastRequest) (req : BlastRequest),
        runBatch client (pre ++ req :: post) =
          runBatch client pre ++ run_blast client req :: runBatch client post) := by
  constructor
  · intro c₁ c₂ req h
    rcases req with ⟨file, bto⟩
    cases file with
    | none => rfl
    | some f =>
      cases bto with
      | none => rfl
      | some bt =>
        by_cases hmem : bt ∈ supportedBlastTypes
        · cases hdec : utf8Decode f with
          | error e => simp [run_blast, hmem, hdec]
          | ok seq => simp [run_blast, hmem, hdec, h bt "nt" seq]
        · simp [run_blast, hmem]
  · intro client pre post req
    simp [runBatch]

theorem c9_stateless_deterministic_witness :
    run_blast ⟨fun _ _ _ => Except.ok (Except.ok "DOC")⟩ ⟨some [65], some "blastn"⟩ =
      run_blast ⟨fun _ _ _ => Except.ok (Except.ok (String.append "DOC" ""))⟩
        ⟨some [65], some "blastn"⟩ ∧
    runBatch readFailClient ([⟨none, none⟩] ++ ⟨some [65], some "blastn"⟩ :: [⟨some [65], none⟩]) =
      runBatch readFailClient [⟨none, none⟩] ++
        run_blast readFailClient ⟨some [65], some "blastn"⟩ ::
          runBatch readFailClient [⟨some [65], none⟩] :=
  ⟨c9_stateless_deterministic.1 ⟨fun _ _ _ => Except.ok (Except.ok "DOC")⟩
      ⟨fun _ _ _ => Except.ok (Except.ok (String.append "DOC" ""))⟩
      ⟨some [65], some "blastn"⟩ (fun _ _ _ => rfl),
   c9_stateless_deterministic.2 readFailClient [⟨none, none⟩] [⟨some [65], none⟩]
     ⟨some [65], some "blastn"⟩⟩

/-- C10: the whitelist check is an exact case-sensitive string comparison:
any value that differs from one of the five supported strings only in letter
case or surrounding whitespace, without being exactly equal to one of them, is
rejected with a 400 naming the submitted value. -/
theorem c10_exact_case_sensitive_match (client : RemoteClient) (f : Bytes) (v : String)
    (hvar : caseSpaceNormal v ∈ supportedBlastTypes)
    (hne : v ∉ supportedBlastTypes) :
    (run_blast client ⟨some f, some v⟩).1 =
      Response.jsonError 400 ("Unsupported blastType \x27" ++ v ++ "\x27") := by
  simp [run_blast, hne]

theorem c10_exact_case_sensitive_match_witness :
    (caseSpaceNormal "BLASTN" ∈ supportedBlastTypes ∧ "BLASTN" ∉ supportedBlastTypes ∧
      (run_blast readFailClient ⟨some [65], some "BLASTN"⟩).1 =
        Response.jsonError 400 "Unsupported blastType \x27BLASTN\x27") ∧
    (caseSpaceNormal "Blastn" ∈ supportedBlastTypes ∧ "Blastn" ∉ supportedBlastTypes ∧
      (run_blast readFailClient ⟨some [65], some "Blastn"⟩).1 =
        Response.jsonError 400 "Unsupported blastType \x27Blastn\x27") ∧
    (caseSpaceNormal " blastn " ∈ supportedBlastTypes ∧ " blastn " ∉ supportedBlastTypes ∧
      (run_blast readFailClient ⟨some [65], some " blastn "⟩).1 =
        Response.jsonError 400 "Unsupported blastType \x27 blastn \x27") :=
  ⟨⟨by decide, by decide,
     c10_exact_case_sensitive_match readFailClient [65] "BLASTN" (by decide) (by decide)⟩,
   ⟨by decide, by decide,
     c10_exact_case_sensitive_match readFailClient [65] "Blastn" (by decide) (by decide)⟩,
   ⟨by decide, by decide,
     c10_exact_case_sensitive_match readFailClient [65] " blastn " (by decide) (by decide)⟩⟩

end NucloFlo
